import Mathlib

/-!
Verification development for the IndexBuildsCoordinator of a replicated
document database (index_builds_coordinator.h / index_builds_coordinator.cpp).

The coordinator's registry is a set of maps guarded by one mutex:
  build UUID -> ReplIndexBuildState        (_allIndexBuilds)
  collection UUID -> collection tracker    (_collectionIndexBuilds)
  database name -> database tracker        (_databaseIndexBuilds)
plus two disallow ("blocker") counter maps (_disallowedCollections,
_disallowedDbs).

We embed the coordinator state as explicit association lists and every
operation as a pure state transformer, translated clause by clause from the
source.  Process-fatal `invariant`/`fassert` failures are modelled by a
distinguished result (`none` or a `fatal` constructor), because a failed
invariant aborts the process and no subsequent state exists.  `uassert`
exceptions are modelled with explicit error results.

The C++ maps `_databaseIndexBuilds` values are `std::shared_ptr`s, and the
source accesses this particular map through `operator[]`, which inserts a
default-constructed (null) shared_ptr when the key is absent.  We therefore
model the stored value as `Option (List Nat)`: `none` is a null tracker
pointer, `some l` a live tracker holding the build ids `l`.
-/

/-- Identifier types: UUIDs are opaque 128-bit values, modelled as `Nat`;
timestamps are modelled as `Nat` with `0` playing the role of the null
timestamp (`Timestamp::isNull`). -/
abbrev BuildId := Nat

abbrev CollUUID := Nat

abbrev Timestamp := Nat

/-- Error codes that appear in the coordinator source. `other` stands for any
error code distinct from all the named ones. -/
inductive ErrorCode where
  | cannotCreateIndex
  | indexBuildAlreadyInProgress
  | indexBuildAborted
  | noSuchKey
  | indexAlreadyExists
  | indexOptionsConflict
  | indexKeySpecsConflict
  | interruptedAtShutdown
  | duplicateKey
  | namespaceNotFound
  | other
deriving DecidableEq

/-- IndexBuildProtocol from index_builds_manager.h: single-phase or two-phase
replication protocol for a build. -/
inductive IndexBuildProtocol where
  | kSinglePhase
  | kTwoPhase
deriving DecidableEq

/-- An index specification.  The coordinator treats specs as opaque BSON
objects and only ever extracts the index name, so the embedding keeps just
that field. -/
structure IndexSpec where
  name : String
deriving DecidableEq

/-- Modelled from the spec: the Build State Record (`ReplIndexBuildState`,
repl_index_build_state.h, which is not among the provided sources).  Fields
are taken from spec section 3 and from every field access in the coordinator
source: identity and immutable build parameters, the index-catalog
statistics, and the mutable signaling state `isCommitReady`,
`commitTimestamp`, `aborted`, `abortTimestamp`, `abortReason` protected by
the per-record mutex. -/
structure ReplIndexBuildState where
  buildUUID : BuildId
  collectionUUID : CollUUID
  dbName : String
  indexSpecs : List IndexSpec
  indexNames : List String
  protocol : IndexBuildProtocol
  commitQuorum : Option Nat
  isCommitReady : Bool
  commitTimestamp : Timestamp
  aborted : Bool
  abortTimestamp : Timestamp
  abortReason : String
  numIndexesBefore : Nat
  numIndexesAfter : Nat
deriving DecidableEq

/-- Modelled from the spec: the constructor of `ReplIndexBuildState`.  The
call sites in the coordinator pass build UUID, collection UUID, database
name, specs, protocol and commit quorum; the index-name list is derived from
the specs, and the signaling state starts cleared (spec section 3). -/
def mkReplIndexBuildState (buildUUID : BuildId) (collectionUUID : CollUUID)
    (dbName : String) (specs : List IndexSpec) (protocol : IndexBuildProtocol)
    (commitQuorum : Option Nat) : ReplIndexBuildState :=
  { buildUUID := buildUUID
    collectionUUID := collectionUUID
    dbName := dbName
    indexSpecs := specs
    indexNames := specs.map IndexSpec.name
    protocol := protocol
    commitQuorum := commitQuorum
    isCommitReady := false
    commitTimestamp := 0
    aborted := false
    abortTimestamp := 0
    abortReason := ""
    numIndexesBefore := 0
    numIndexesAfter := 0 }

/-- Association-list lookup (the embedding of map `find`). -/
def alookup {α β : Type} [DecidableEq α] : List (α × β) → α → Option β
  | [], _ => none
  | (k, v) :: rest, a => if k = a then some v else alookup rest a

/-- Association-list insert-or-replace (the embedding of map `insert` /
`operator[]` assignment). -/
def ainsert {α β : Type} [DecidableEq α] : List (α × β) → α → β → List (α × β)
  | [], a, b => [(a, b)]
  | (k, v) :: rest, a, b => if k = a then (a, b) :: rest else (k, v) :: ainsert rest a b

/-- Association-list erase of the first entry with the given key (the
embedding of map `erase`). -/
def aerase {α β : Type} [DecidableEq α] : List (α × β) → α → List (α × β)
  | [], _ => []
  | (k, v) :: rest, a => if k = a then rest else (k, v) :: aerase rest a

/-- Update the value stored at a key in place, leaving other entries alone
(the embedding of mutating a record through the shared pointer held in
`_allIndexBuilds`). -/
def updateRecord : List (BuildId × ReplIndexBuildState) → BuildId →
    (ReplIndexBuildState → ReplIndexBuildState) →
    List (BuildId × ReplIndexBuildState)
  | [], _, _ => []
  | (k, r) :: rest, b, f =>
    if k = b then (k, f r) :: updateRecord rest b f
    else (k, r) :: updateRecord rest b f

/-- Modelled from the spec: `CollectionIndexBuildsTracker`
(collection_index_builds_tracker.h, not among the provided sources).  Spec
section 3: a mapping from index name to a handle on the Build State Record,
plus the set of builds on the collection (whose size is
`getNumberOfIndexBuilds`).  Handles are embedded as build ids resolved
through `_allIndexBuilds`. -/
structure CollectionIndexBuildsTracker where
  buildStateByIndexName : List (String × BuildId)
  buildStateByBuildUUID : List BuildId
deriving DecidableEq

def CollectionIndexBuildsTracker.empty : CollectionIndexBuildsTracker :=
  { buildStateByIndexName := [], buildStateByBuildUUID := [] }

/-- Tracker registration: each of the build's index names is mapped to the
build, and the build is added to the by-id set. -/
def CollectionIndexBuildsTracker.addIndexBuild (t : CollectionIndexBuildsTracker)
    (b : ReplIndexBuildState) : CollectionIndexBuildsTracker :=
  { buildStateByIndexName :=
      b.indexNames.foldl (fun m n => ainsert m n b.buildUUID) t.buildStateByIndexName
    buildStateByBuildUUID := b.buildUUID :: t.buildStateByBuildUUID }

/-- Tracker deregistration: erase every index name of the build and the build
itself. -/
def CollectionIndexBuildsTracker.removeIndexBuild (t : CollectionIndexBuildsTracker)
    (b : ReplIndexBuildState) : CollectionIndexBuildsTracker :=
  { buildStateByIndexName := b.indexNames.foldl (fun m n => aerase m n) t.buildStateByIndexName
    buildStateByBuildUUID := t.buildStateByBuildUUID.erase b.buildUUID }

def CollectionIndexBuildsTracker.getNumberOfIndexBuilds
    (t : CollectionIndexBuildsTracker) : Nat :=
  t.buildStateByBuildUUID.length

def CollectionIndexBuildsTracker.hasIndexBuildState
    (t : CollectionIndexBuildsTracker) (name : String) : Bool :=
  (alookup t.buildStateByIndexName name).isSome

/-- The coordinator's registry state: the five mutex-guarded containers of
`IndexBuildsCoordinator`, in member-declaration order.  Database tracker
values are `Option (List BuildId)` because the map stores shared pointers
that the source can materialise as null through `operator[]`. -/
structure CoordinatorState where
  disallowedDbs : List (String × Nat)
  disallowedCollections : List (CollUUID × Nat)
  databaseIndexBuilds : List (String × Option (List BuildId))
  collectionIndexBuilds : List (CollUUID × CollectionIndexBuildsTracker)
  allIndexBuilds : List (BuildId × ReplIndexBuildState)
deriving DecidableEq

/-- The coordinator as constructed: every container empty. -/
def initialState : CoordinatorState :=
  { disallowedDbs := []
    disallowedCollections := []
    databaseIndexBuilds := []
    collectionIndexBuilds := []
    allIndexBuilds := [] }

/-- Result of `_registerIndexBuild`: success with the new state, a
`Status` error returned to the caller, or a fatal `invariant` failure. -/
inductive RegisterResult where
  | ok (s : CoordinatorState)
  | err (e : ErrorCode)
  | fatal
deriving DecidableEq

/-- The scan inside `_registerIndexBuild` (source lines 1448-1484): walk the
requested index names in order and return the build currently building the
first name that is already present in the collection tracker. -/
def firstConflictingBuild (t : CollectionIndexBuildsTracker) :
    List String → Option BuildId
  | [] => none
  | n :: rest =>
    match alookup t.buildStateByIndexName n with
    | some existingId => some existingId
    | none => firstConflictingBuild t rest

/-- The name-collision branch of `_registerIndexBuild`: if a collection
tracker exists and one of the requested names is already being built, return
the error chosen from the existing build's signaling state, reading
`isCommitReady` before `aborted` exactly as the source's if/else-if chain
does.  `fatal` covers the impossible case of a tracker handle whose build is
not in `_allIndexBuilds` (in C++ the tracker holds the shared_ptr itself). -/
def collisionCheck (s : CoordinatorState) (b : ReplIndexBuildState) :
    Option RegisterResult :=
  match alookup s.collectionIndexBuilds b.collectionUUID with
  | none => none
  | some tracker =>
    match firstConflictingBuild tracker b.indexNames with
    | none => none
    | some existingId =>
      match alookup s.allIndexBuilds existingId with
      | none => some .fatal
      | some existing =>
        if existing.isCommitReady then some (.err .indexBuildAlreadyInProgress)
        else if existing.aborted then some (.err .indexBuildAborted)
        else some (.err .indexBuildAlreadyInProgress)

/-- `IndexBuildsCoordinator::_registerIndexBuild` (source lines 1436-1504).
Order of checks: the disallow maps first (`CannotCreateIndex`), then the
index-name collision check, then registration in the database tracker, the
collection tracker and `_allIndexBuilds`.  The final `invariant` that the
emplace into `_allIndexBuilds` inserted a fresh key is modelled by
`fatal`. -/
def registerIndexBuild (s : CoordinatorState) (b : ReplIndexBuildState) :
    RegisterResult :=
  if (alookup s.disallowedCollections b.collectionUUID).isSome
      || (alookup s.disallowedDbs b.dbName).isSome then
    .err .cannotCreateIndex
  else
    match collisionCheck s b with
    | some r => r
    | none =>
      let dbTracker := ((alookup s.databaseIndexBuilds b.dbName).join).getD []
      let dbs := ainsert s.databaseIndexBuilds b.dbName (some (b.buildUUID :: dbTracker))
      let collTracker :=
        (alookup s.collectionIndexBuilds b.collectionUUID).getD CollectionIndexBuildsTracker.empty
      let colls := ainsert s.collectionIndexBuilds b.collectionUUID
        (collTracker.addIndexBuild b)
      if (alookup s.allIndexBuilds b.buildUUID).isSome then .fatal
      else .ok { s with
        databaseIndexBuilds := dbs
        collectionIndexBuilds := colls
        allIndexBuilds := (b.buildUUID, b) :: s.allIndexBuilds }

/-- `IndexBuildsCoordinator::_unregisterIndexBuild` (source lines 1506-1523).
Remove the build from its database tracker and erase the tracker entry when
its count reaches zero; same for the collection tracker; finally erase the
build from `_allIndexBuilds`.  Each of the source's `invariant`s (database
tracker pointer non-null, collection tracker entry present, erase from
`_allIndexBuilds` effective) is modelled by returning `none`. -/
def unregisterIndexBuild (s : CoordinatorState) (b : ReplIndexBuildState) :
    Option CoordinatorState :=
  match alookup s.databaseIndexBuilds b.dbName with
  | none => none
  | some none => none
  | some (some dbTracker) =>
    let dbTracker' := dbTracker.erase b.buildUUID
    let dbs := if dbTracker'.length = 0 then aerase s.databaseIndexBuilds b.dbName
      else ainsert s.databaseIndexBuilds b.dbName (some dbTracker')
    match alookup s.collectionIndexBuilds b.collectionUUID with
    | none => none
    | some collTracker =>
      let collTracker' := collTracker.removeIndexBuild b
      let colls := if collTracker'.getNumberOfIndexBuilds = 0 then
          aerase s.collectionIndexBuilds b.collectionUUID
        else ainsert s.collectionIndexBuilds b.collectionUUID collTracker'
      if (alookup s.allIndexBuilds b.buildUUID).isSome then
        some { s with
          databaseIndexBuilds := dbs
          collectionIndexBuilds := colls
          allIndexBuilds := aerase s.allIndexBuilds b.buildUUID }
      else none

/-- Result of `commitIndexBuild`: success, a thrown `uassert` status, or a
fatal `invariant` failure. -/
inductive CommitResult where
  | ok (s : CoordinatorState)
  | err (e : ErrorCode)
  | fatal
deriving DecidableEq

/-- `IndexBuildsCoordinator::commitIndexBuild` (source lines 1127-1137).
`uassertStatusOK(_getIndexBuild(buildUUID))` throws `NoSuchKey` for an
unregistered build; otherwise the record's `isCommitReady` flag is set and
`commitTimestamp` is stamped from the operation context - unconditionally,
with no examination of `aborted` - and the source then `invariant`s that the
stamped timestamp is non-null (modelled by `fatal` when `commitTimestamp`
is `0`). -/
def commitIndexBuild (s : CoordinatorState) (commitTimestamp : Timestamp)
    (buildUUID : BuildId) : CommitResult :=
  match alookup s.allIndexBuilds buildUUID with
  | none => .err .noSuchKey
  | some _ =>
    if commitTimestamp = 0 then .fatal
    else .ok { s with
      allIndexBuilds := updateRecord s.allIndexBuilds buildUUID fun r =>
        { r with isCommitReady := true, commitTimestamp := commitTimestamp } }

/-- `IndexBuildsCoordinator::abortIndexBuildByBuildUUID` (source lines
1139-1154).  After the (externally modelled) interrupt request to the
IndexBuildsManager, a registered build's record gets `aborted`,
`abortTimestamp` (the operation context's commit timestamp, which may be
null) and `abortReason` set, unconditionally; an unknown build id is
ignored. -/
def abortIndexBuildByBuildUUID (s : CoordinatorState) (abortTimestamp : Timestamp)
    (buildUUID : BuildId) (reason : String) : CoordinatorState :=
  match alookup s.allIndexBuilds buildUUID with
  | none => s
  | some _ =>
    { s with
      allIndexBuilds := updateRecord s.allIndexBuilds buildUUID fun r =>
        { r with aborted := true, abortTimestamp := abortTimestamp,
                 abortReason := reason } }

/-- Observable behaviour of `joinIndexBuild` (source lines 1063-1071): an
unknown build id returns quietly, otherwise the call waits on the build's
shared promise. -/
inductive JoinOutcome where
  | returnedQuietly
  | waitedOnFuture
deriving DecidableEq

/-- `IndexBuildsCoordinator::joinIndexBuild` (source lines 1063-1071). -/
def joinIndexBuild (s : CoordinatorState) (buildUUID : BuildId) : JoinOutcome :=
  match alookup s.allIndexBuilds buildUUID with
  | none => .returnedQuietly
  | some _ => .waitedOnFuture

/-- The per-record body of `IndexBuildsCoordinator::onStepUp` (source lines
1160-1171): an aborted build is skipped; otherwise the source `invariant`s
that the commit timestamp is null and that the build is not already commit
ready (modelled by `none`), then sets `isCommitReady`. -/
def onStepUpRecord (r : ReplIndexBuildState) : Option ReplIndexBuildState :=
  if r.aborted then some r
  else if r.commitTimestamp ≠ 0 then none
  else if r.isCommitReady then none
  else some { r with isCommitReady := true }

/-- The per-record body of `IndexBuildsCoordinator::onRollback` (source lines
1178-1190): an aborted build is skipped; otherwise the source `invariant`s
that the abort timestamp is null and (redundantly, inside the `!aborted`
branch) that the build is not aborted, then sets `aborted` with reason
"rollback", leaving the abort timestamp null. -/
def onRollbackRecord (r : ReplIndexBuildState) : Option ReplIndexBuildState :=
  if r.aborted then some r
  else if r.abortTimestamp ≠ 0 then none
  else if r.aborted then none
  else some { r with aborted := true, abortReason := "rollback" }

/-- Apply a per-record transformation to every build of the snapshot taken by
`_getIndexBuilds()`, failing as soon as one record's `invariant` fails. -/
def mapRecords (f : ReplIndexBuildState → Option ReplIndexBuildState) :
    List (BuildId × ReplIndexBuildState) →
    Option (List (BuildId × ReplIndexBuildState))
  | [] => some []
  | p :: rest =>
    match f p.2 with
    | none => none
    | some r =>
      match mapRecords f rest with
      | none => none
      | some rest' => some ((p.1, r) :: rest')

/-- `IndexBuildsCoordinator::onStepUp` (source lines 1156-1173). -/
def onStepUp (s : CoordinatorState) : Option CoordinatorState :=
  (mapRecords onStepUpRecord s.allIndexBuilds).map fun l =>
    { s with allIndexBuilds := l }

/-- `IndexBuildsCoordinator::onRollback` (source lines 1175-1192). -/
def onRollback (s : CoordinatorState) : Option CoordinatorState :=
  (mapRecords onRollbackRecord s.allIndexBuilds).map fun l =>
    { s with allIndexBuilds := l }

/-- The helper `abortIndexBuild` of the anonymous namespace (source lines
859-871), applied by `runOperationOnAllBuilds` to each build of a tracker:
ask the IndexBuildsManager to abort the underlying builder, and only when the
builder is not registered in the manager set the coordinator-side `aborted`
flag and `abortReason` (no abort timestamp, no notify guard). -/
def abortTrackedBuild (builderRegisteredInManager : BuildId → Bool)
    (reason : String) (buildUUID : BuildId) (r : ReplIndexBuildState) :
    ReplIndexBuildState :=
  if builderRegisteredInManager buildUUID then r
  else { r with aborted := true, abortReason := reason }

/-- `IndexBuildsCoordinator::abortDatabaseIndexBuilds` (source lines
1108-1125).  The caller must hold a database Scoped Blocker (`invariant` on
`_disallowedDbs`, modelled by `none`).  The database tracker is fetched with
`_databaseIndexBuilds[db]`, i.e. map `operator[]`: when the key is absent
this inserts a null shared_ptr entry before the `if (!dbIndexBuilds) return`
bails out, so the early-return path leaves a `none` entry in the map.
Otherwise every build of the tracker is signalled through the manager /
coordinator abort helper and the call then waits (waiting does not change the
registry). -/
def abortDatabaseIndexBuilds (s : CoordinatorState) (db : String)
    (reason : String) (builderRegisteredInManager : BuildId → Bool) :
    Option CoordinatorState :=
  if (alookup s.disallowedDbs db).isNone then none
  else
    match alookup s.databaseIndexBuilds db with
    | none =>
      some { s with databaseIndexBuilds := ainsert s.databaseIndexBuilds db none }
    | some none => some s
    | some (some dbTracker) =>
      some { s with
        allIndexBuilds := s.allIndexBuilds.map fun p =>
          if dbTracker.contains p.1 then
            (p.1, abortTrackedBuild builderRegisteredInManager reason p.1 p.2)
          else p }

/-- `IndexBuildsCoordinator::abortCollectionIndexBuilds` (source lines
1087-1106).  Same shape as the database variant, but the collection tracker
map is accessed with `find`, so the no-tracker path leaves the registry
untouched. -/
def abortCollectionIndexBuilds (s : CoordinatorState) (collectionUUID : CollUUID)
    (reason : String) (builderRegisteredInManager : BuildId → Bool) :
    Option CoordinatorState :=
  if (alookup s.disallowedCollections collectionUUID).isNone then none
  else
    match alookup s.collectionIndexBuilds collectionUUID with
    | none => some s
    | some tracker =>
      some { s with
        allIndexBuilds := s.allIndexBuilds.map fun p =>
          if tracker.buildStateByBuildUUID.contains p.1 then
            (p.1, abortTrackedBuild builderRegisteredInManager reason p.1 p.2)
          else p }

/-- `IndexBuildsCoordinator::_stopIndexBuildsOnDatabase` (source lines
2260-2269): increment an existing disallow counter or insert it at one. -/
def stopIndexBuildsOnDatabase (s : CoordinatorState) (db : String) :
    CoordinatorState :=
  match alookup s.disallowedDbs db with
  | some n => { s with disallowedDbs := ainsert s.disallowedDbs db (n + 1) }
  | none => { s with disallowedDbs := ainsert s.disallowedDbs db 1 }

/-- `IndexBuildsCoordinator::_stopIndexBuildsOnCollection` (source lines
2271-2280). -/
def stopIndexBuildsOnCollection (s : CoordinatorState) (collectionUUID : CollUUID) :
    CoordinatorState :=
  match alookup s.disallowedCollections collectionUUID with
  | some n =>
    { s with disallowedCollections := ainsert s.disallowedCollections collectionUUID (n + 1) }
  | none =>
    { s with disallowedCollections := ainsert s.disallowedCollections collectionUUID 1 }

/-- `IndexBuildsCoordinator::_allowIndexBuildsOnDatabase` (source lines
2282-2291): the entry must exist with a nonzero counter (`invariant`s,
modelled by `none`); decrement, erasing the entry at zero. -/
def allowIndexBuildsOnDatabase (s : CoordinatorState) (db : String) :
    Option CoordinatorState :=
  match alookup s.disallowedDbs db with
  | none => none
  | some n =>
    if n = 0 then none
    else if n - 1 = 0 then some { s with disallowedDbs := aerase s.disallowedDbs db }
    else some { s with disallowedDbs := ainsert s.disallowedDbs db (n - 1) }

/-- `IndexBuildsCoordinator::_allowIndexBuildsOnCollection` (source lines
2293-2302). -/
def allowIndexBuildsOnCollection (s : CoordinatorState) (collectionUUID : CollUUID) :
    Option CoordinatorState :=
  match alookup s.disallowedCollections collectionUUID with
  | none => none
  | some n =>
    if n = 0 then none
    else if n - 1 = 0 then
      some { s with disallowedCollections := aerase s.disallowedCollections collectionUUID }
    else
      some { s with disallowedCollections := ainsert s.disallowedCollections collectionUUID (n - 1) }

/-- `IndexBuildsCoordinator::inProgForDb` (source lines 1230-1233): presence
of a database tracker map entry, live or null. -/
def inProgForDb (s : CoordinatorState) (db : String) : Bool :=
  (alookup s.databaseIndexBuilds db).isSome

/-- The emptiness conditions asserted by the destructor
`IndexBuildsCoordinator::~IndexBuildsCoordinator` (source lines 942-947), in
source order: `_databaseIndexBuilds`, `_disallowedDbs`,
`_disallowedCollections`, `_collectionIndexBuilds`.  Note that
`_allIndexBuilds` is not among them. -/
def destructorInvariantsHold (s : CoordinatorState) : Prop :=
  s.databaseIndexBuilds = [] ∧ s.disallowedDbs = [] ∧
    s.disallowedCollections = [] ∧ s.collectionIndexBuilds = []

instance (s : CoordinatorState) : Decidable (destructorInvariantsHold s) := by
  unfold destructorInvariantsHold; infer_instance

/-- Membership of a build id in a database tracker map entry: the entry must
exist and hold a live (non-null) tracker containing the build. -/
def dbEntryContains (e : Option (Option (List BuildId))) (b : BuildId) : Bool :=
  match e with
  | some (some t) => t.contains b
  | _ => false

/-- Membership of a build id in an optional live database tracker. -/
def dbTrackerContains (e : Option (List BuildId)) (b : BuildId) : Bool :=
  match e with
  | some t => t.contains b
  | none => false

/-- The registry/tracker invariants of spec section 3, as one decidable
predicate: every registered build appears in the database tracker of its
database and in no other, and in the collection tracker of its collection
and in no other; every database tracker map entry is a live tracker holding
at least one build, all of them registered; every collection tracker map
entry holds at least one build, all of them registered. -/
def registryInvariant (s : CoordinatorState) : Bool :=
  s.allIndexBuilds.all (fun p =>
    dbEntryContains (alookup s.databaseIndexBuilds p.2.dbName) p.1 &&
    s.databaseIndexBuilds.all (fun q =>
      !(dbTrackerContains q.2 p.1) || q.1 == p.2.dbName) &&
    (match alookup s.collectionIndexBuilds p.2.collectionUUID with
     | some t => t.buildStateByBuildUUID.contains p.1
     | none => false) &&
    s.collectionIndexBuilds.all (fun q =>
      !(q.2.buildStateByBuildUUID.contains p.1) || q.1 == p.2.collectionUUID)) &&
  s.databaseIndexBuilds.all (fun q =>
    match q.2 with
    | some t => !t.isEmpty && t.all (fun b => (alookup s.allIndexBuilds b).isSome)
    | none => false) &&
  s.collectionIndexBuilds.all (fun q =>
    !q.2.buildStateByBuildUUID.isEmpty &&
    q.2.buildStateByBuildUUID.all (fun b => (alookup s.allIndexBuilds b).isSome))

/-- `shouldWaitForCommitOrAbort` (source lines 750-767): wait for a
cross-node signal only for a two-phase build, on a node using replica sets,
that cannot currently accept writes for the namespace. -/
def shouldWaitForCommitOrAbort (protocol : IndexBuildProtocol)
    (usingReplSets canAcceptWrites : Bool) : Bool :=
  if protocol ≠ .kTwoPhase then false
  else if !usingReplSets then false
  else if canAcceptWrites then false
  else true

/-- Outcome of the tail of the two-phase driver around the WAIT point:
either the driver proceeds into `_insertKeysFromSideTablesAndCommit` with a
(possibly null) commit timestamp, or an exception propagates, or a fatal
`invariant` fires, or the condition-variable predicate is not satisfied and
the driver keeps waiting. -/
inductive DriverOutcome where
  | proceedsToCommit (commitTimestamp : Timestamp)
  | thrown (e : ErrorCode)
  | fatal
  | keepsWaiting
deriving DecidableEq

/-- `IndexBuildsCoordinator::_waitForCommitOrAbort` (source lines 2064-2106).
When `shouldWaitForCommitOrAbort` is false the function immediately returns
the null timestamp.  Otherwise it blocks until `isCommitReady || aborted`
(`keepsWaiting` when neither holds at the modelled wake point).  On a
commit-ready record it takes the stamped `commitTimestamp`, `invariant`s
`!aborted`, and `uassert`s the held `preAbortStatus`, surfacing it as an
exception if set; on an aborted record it simply returns the null timestamp,
discarding `preAbortStatus`. -/
def waitForCommitOrAbort (protocol : IndexBuildProtocol)
    (usingReplSets canAcceptWrites : Bool) (r : ReplIndexBuildState)
    (preAbortStatus : Option ErrorCode) : DriverOutcome :=
  if shouldWaitForCommitOrAbort protocol usingReplSets canAcceptWrites then
    if r.isCommitReady then
      if r.aborted then .fatal
      else
        match preAbortStatus with
        | some e => .thrown e
        | none => .proceedsToCommit r.commitTimestamp
    else if r.aborted then .proceedsToCommit 0
    else .keepsWaiting
  else .proceedsToCommit 0

/-- `IndexBuildsCoordinator::_buildIndexTwoPhase` (source lines 1924-1960).
`scanOrDrainError` is the exception, if any, thrown by the collection scan or
the first two drain phases.  On a node that is not a replica-set secondary
for the namespace such an exception is rethrown immediately; so is
`InterruptedAtShutdown`.  Any other exception on the secondary path is held
as `preAbortStatus` and the driver still enters `_waitForCommitOrAbort`; the
record `r` gives the signaling state at the wake point. -/
def buildIndexTwoPhase (protocol : IndexBuildProtocol)
    (usingReplSets canAcceptWrites : Bool) (r : ReplIndexBuildState)
    (scanOrDrainError : Option ErrorCode) : DriverOutcome :=
  let replSetAndNotPrimary := usingReplSets && !canAcceptWrites
  match scanOrDrainError with
  | some e =>
    if !replSetAndNotPrimary then .thrown e
    else if e = .interruptedAtShutdown then .thrown e
    else waitForCommitOrAbort protocol usingReplSets canAcceptWrites r (some e)
  | none => waitForCommitOrAbort protocol usingReplSets canAcceptWrites r none

/-- What `_runIndexBuildInner` does with a failed status on the secondary
oplog-application path (source lines 1873-1882): a build stopped by an
`abortIndexBuild` oplog entry returns quietly after cleanup, any other
failure is a fatal divergence (`fassert` 51101) and the node halts. -/
inductive SecondaryFailureAction where
  | returnsAfterCleanup
  | fassertCrash
deriving DecidableEq

/-- The secondary-path failure dispatch of `_runIndexBuildInner` (source
lines 1875-1881). -/
def secondaryFailureAction (e : ErrorCode) : SecondaryFailureAction :=
  if e = .indexBuildAborted then .returnsAfterCleanup else .fassertCrash

/-- Outcome of `_registerAndSetUpIndexBuild`: a ready future carrying final
index-catalog statistics, a scheduled build (the returned `boost::none`,
telling `startIndexBuild` to hand the build to a driver thread), a setup
error returned to the caller, or a fatal `invariant` failure. -/
inductive SetupOutcome where
  | readyFuture (numIndexesBefore numIndexesAfter : Nat)
  | scheduled
  | err (e : ErrorCode)
  | fatal
deriving DecidableEq

/-- `IndexBuildsCoordinator::_registerAndSetUpIndexBuild` (source lines
1525-1668), the registration step of `startIndexBuild`.  The interactions
with the outside world are parameters: `filterResult` is the outcome of
`_addDefaultsAndFilterExistingIndexes` (collation defaults applied, specs of
existing or in-progress indexes removed, shard-key check), `numIndexesTotal`
is `_getNumIndexesTotal`, `relaxConstraints` is
`shouldRelaxIndexConstraints`, and `setupStatus` is the status of
`IndexBuildsManager::setUpIndexBuild` (`none` = OK).  An empty filtered list
short-circuits to a ready future with equal before/after counts and no
registration; a setup failure unregisters the build and either returns the
same short-circuit (for `IndexAlreadyExists`, or for
`IndexOptionsConflict`/`IndexKeySpecsConflict` under relaxed constraints) or
propagates the error.  `setupRecord` is the record built at source lines
1573-1575: the fresh `ReplIndexBuildState` whose `stats.numIndexesBefore` is
set to `_getNumIndexesTotal` before registration. -/
def setupRecord (dbName : String) (collectionUUID : CollUUID) (buildUUID : BuildId)
    (protocol : IndexBuildProtocol) (commitQuorum : Option Nat)
    (filteredSpecs : List IndexSpec) (numIndexesTotal : Nat) : ReplIndexBuildState :=
  { mkReplIndexBuildState buildUUID collectionUUID dbName filteredSpecs
      protocol commitQuorum with
    numIndexesBefore := numIndexesTotal }

/-- The body of `_registerAndSetUpIndexBuild` (see the doc comment above
`setupRecord`): filter, short-circuit on an empty list, register, run
manager setup, and on failure unregister and dispatch on the error code. -/
def registerAndSetUpIndexBuild (s : CoordinatorState) (dbName : String)
    (collectionUUID : CollUUID) (buildUUID : BuildId)
    (protocol : IndexBuildProtocol) (commitQuorum : Option Nat)
    (filterResult : Except ErrorCode (List IndexSpec)) (numIndexesTotal : Nat)
    (relaxConstraints : Bool) (setupStatus : Option ErrorCode) :
    CoordinatorState × SetupOutcome :=
  match filterResult with
  | .error e => (s, .err e)
  | .ok filteredSpecs =>
    if filteredSpecs.isEmpty then
      (s, .readyFuture numIndexesTotal numIndexesTotal)
    else
      let replIndexBuildState :=
        setupRecord dbName collectionUUID buildUUID protocol commitQuorum
          filteredSpecs numIndexesTotal
      match registerIndexBuild s replIndexBuildState with
      | .err e => (s, .err e)
      | .fatal => (s, .fatal)
      | .ok s1 =>
        match setupStatus with
        | none => (s1, .scheduled)
        | some e =>
          match unregisterIndexBuild s1 replIndexBuildState with
          | none => (s1, .fatal)
          | some s2 =>
            if e = .indexAlreadyExists ∨
                ((e = .indexOptionsConflict ∨ e = .indexKeySpecsConflict) ∧
                  relaxConstraints) then
              (s2, .readyFuture replIndexBuildState.numIndexesBefore
                replIndexBuildState.numIndexesBefore)
            else
              (s2, .err e)

/-- A sample index spec used by the concrete scenarios below. -/
def specA : IndexSpec := { name := "idx_a" }

/-- Build 1: a two-phase build of `idx_a` on collection 10 of database
"testdb". -/
def recB1 : ReplIndexBuildState :=
  mkReplIndexBuildState 1 10 "testdb" [specA] .kTwoPhase none

/-- Build 2: a second two-phase build of the same index name on the same
collection, with a fresh build UUID. -/
def recB2 : ReplIndexBuildState :=
  mkReplIndexBuildState 2 10 "testdb" [specA] .kTwoPhase none

/-- The coordinator state reached by registering `recB1` in the initial
state (checked against `registerIndexBuild` in the theorems below). -/
def stateWithB1 : CoordinatorState :=
  { disallowedDbs := []
    disallowedCollections := []
    databaseIndexBuilds := [("testdb", some [1])]
    collectionIndexBuilds :=
      [(10, { buildStateByIndexName := [("idx_a", 1)], buildStateByBuildUUID := [1] })]
    allIndexBuilds := [(1, recB1)] }

/-- `recB1` after an abort signal with timestamp 3 and reason "abort". -/
def recB1Aborted : ReplIndexBuildState :=
  { recB1 with aborted := true, abortTimestamp := 3, abortReason := "abort" }

/-- `recB1` after a commit signal with timestamp 7. -/
def recB1Committed : ReplIndexBuildState :=
  { recB1 with isCommitReady := true, commitTimestamp := 7 }

/-- `recB1` after an abort signal (timestamp 3, reason "abort") followed by a
commit signal (timestamp 7): both terminal flags at once. -/
def recB1Both : ReplIndexBuildState :=
  { recB1 with
    isCommitReady := true, commitTimestamp := 7,
    aborted := true, abortTimestamp := 3, abortReason := "abort" }

/-- The state reached from `stateWithB1` by an abort signal (timestamp 3,
reason "abort") for build 1. -/
def stateAborted : CoordinatorState :=
  { stateWithB1 with allIndexBuilds := [(1, recB1Aborted)] }

/-- The state reached from `stateAborted` by a commit signal (timestamp 7)
for build 1: the record carries both terminal flags at once. -/
def stateBothFlags : CoordinatorState :=
  { stateWithB1 with allIndexBuilds := [(1, recB1Both)] }

/-- The state reached from `stateWithB1` by a commit signal with timestamp 7
for build 1. -/
def stateCommitReady : CoordinatorState :=
  { stateWithB1 with allIndexBuilds := [(1, recB1Committed)] }

/-- What `onRollback` makes of `stateCommitReady`: the commit-ready record
additionally becomes aborted with reason "rollback". -/
def stateCommitReadyRolledBack : CoordinatorState :=
  { stateWithB1 with
    allIndexBuilds :=
      [(1, { recB1Committed with aborted := true, abortReason := "rollback" })] }

/-- A build on the blocked database "dropdb", used to exercise the
registration-denied error. -/
def recDropdb : ReplIndexBuildState :=
  mkReplIndexBuildState 3 11 "dropdb" [specA] .kTwoPhase none

/-- A database Scoped Blocker held on "dropdb", no builds anywhere: the
precondition state of `abortDatabaseIndexBuilds` during a drop-database of a
database with no active index builds. -/
def stateBlockedDropdb : CoordinatorState :=
  { initialState with disallowedDbs := [("dropdb", 1)] }

/-- The state `abortDatabaseIndexBuilds` leaves behind from
`stateBlockedDropdb`: map `operator[]` has inserted a null database tracker
entry for "dropdb". -/
def stateNullDbEntry : CoordinatorState :=
  { initialState with
    disallowedDbs := [("dropdb", 1)]
    databaseIndexBuilds := [("dropdb", none)] }

/-- `stateNullDbEntry` after the Scoped Blocker is destroyed: a quiescent
coordinator with no builds whose database-tracker map is nonetheless
nonempty. -/
def stateNullDbEntryUnblocked : CoordinatorState :=
  { initialState with databaseIndexBuilds := [("dropdb", none)] }

/-- A state whose build-id map is nonempty while the four containers the
destructor asserts about are all empty. -/
def stateOnlyAllBuilds : CoordinatorState :=
  { initialState with allIndexBuilds := [(1, recB1)] }

theorem alookup_cons {α β : Type} [DecidableEq α] (k a : α) (v : β)
    (l : List (α × β)) :
    alookup ((k, v) :: l) a = if k = a then some v else alookup l a := rfl

theorem alookup_cons_self {α β : Type} [DecidableEq α] (k : α) (v : β)
    (l : List (α × β)) : alookup ((k, v) :: l) k = some v := by
  simp [alookup_cons]

theorem alookup_ainsert_self {α β : Type} [DecidableEq α] (l : List (α × β))
    (k : α) (v : β) : alookup (ainsert l k v) k = some v := by
  induction l with
  | nil => simp [ainsert, alookup_cons]
  | cons p rest ih =>
    obtain ⟨k', v'⟩ := p
    by_cases h : k' = k <;> simp [ainsert, alookup_cons, h, ih]

theorem aerase_cons_self {α β : Type} [DecidableEq α] (k : α) (v : β)
    (l : List (α × β)) : aerase ((k, v) :: l) k = l := by
  simp [aerase]

theorem alookup_updateRecord (l : List (BuildId × ReplIndexBuildState))
    (b a : BuildId) (f : ReplIndexBuildState → ReplIndexBuildState) :
    alookup (updateRecord l b f) a =
      if a = b then (alookup l a).map f else alookup l a := by
  induction l with
  | nil => simp [updateRecord, alookup]
  | cons p rest ih =>
    obtain ⟨k, r⟩ := p
    by_cases hkb : k = b
    · subst hkb
      by_cases hka : k = a
      · subst hka
        simp [updateRecord, alookup_cons, ih]
      · have hak : ¬a = k := fun h => hka h.symm
        simp [updateRecord, alookup_cons, hka, hak, ih]
    · by_cases hka : k = a
      · subst hka
        simp [updateRecord, alookup_cons, hkb]
      · simp [updateRecord, alookup_cons, hkb, hka, ih]

theorem alookup_updateRecord_self (l : List (BuildId × ReplIndexBuildState))
    (b : BuildId) (f : ReplIndexBuildState → ReplIndexBuildState) :
    alookup (updateRecord l b f) b = (alookup l b).map f := by
  simp [alookup_updateRecord]

theorem updateRecord_updateRecord (l : List (BuildId × ReplIndexBuildState))
    (b : BuildId) (f g : ReplIndexBuildState → ReplIndexBuildState) :
    updateRecord (updateRecord l b f) b g = updateRecord l b (fun r => g (f r)) := by
  induction l with
  | nil => rfl
  | cons p rest ih =>
    obtain ⟨k, r⟩ := p
    by_cases hkb : k = b <;> simp [updateRecord, hkb, ih]

/-- Claim C10: for a build id not present in the registry, `commitIndexBuild`
raises an error (it `uassert`s the result of the build lookup, which is a
`NoSuchKey` status), whereas `joinIndexBuild` and `abortIndexBuildByBuildUUID`
called with the same unknown build id return normally without raising. -/
theorem claim_c10_unknown_build (s : CoordinatorState) (ts : Timestamp)
    (b : BuildId) (reason : String)
    (h : alookup s.allIndexBuilds b = none) :
    commitIndexBuild s ts b = .err .noSuchKey ∧
    joinIndexBuild s b = .returnedQuietly ∧
    abortIndexBuildByBuildUUID s ts b reason = s := by
  refine ⟨?_, ?_, ?_⟩ <;>
    simp [commitIndexBuild, joinIndexBuild, abortIndexBuildByBuildUUID, h]

/-- Claim C10 witness: build id 5 is unknown in the initial state; committing
it errors while joining and aborting it return normally. -/
theorem claim_c10_witness :
    commitIndexBuild initialState 7 5 = .err .noSuchKey ∧
    joinIndexBuild initialState 5 = .returnedQuietly ∧
    abortIndexBuildByBuildUUID initialState 7 5 "stop" = initialState :=
  claim_c10_unknown_build initialState 7 5 "stop" (by decide)

/-- Claim C5: calling `abortIndexBuildByBuildUUID` twice with the same build
id, abort timestamp and reason has the same effect on the coordinator's
state as calling it once; in particular the record ends with `aborted` set
and the same `abortReason` and `abortTimestamp` (second conjunct). -/
theorem claim_c5_abort_idempotent (s : CoordinatorState) (ts : Timestamp)
    (b : BuildId) (reason : String) :
    abortIndexBuildByBuildUUID (abortIndexBuildByBuildUUID s ts b reason) ts b reason
      = abortIndexBuildByBuildUUID s ts b reason ∧
    (∀ r, alookup s.allIndexBuilds b = some r →
      alookup (abortIndexBuildByBuildUUID s ts b reason).allIndexBuilds b =
        some { r with aborted := true, abortTimestamp := ts, abortReason := reason }) := by
  constructor
  · cases h : alookup s.allIndexBuilds b with
    | none => simp [abortIndexBuildByBuildUUID, h]
    | some r =>
      simp only [abortIndexBuildByBuildUUID, h, alookup_updateRecord_self,
        Option.map_some']
      rw [updateRecord_updateRecord]
  · intro r h
    simp [abortIndexBuildByBuildUUID, h, alookup_updateRecord_self]

/-- Claim C5 witness: aborting build 1 of `stateWithB1` twice with timestamp 3
and reason "abort" equals aborting it once, and the record ends aborted with
that reason and timestamp. -/
theorem claim_c5_witness :
    abortIndexBuildByBuildUUID (abortIndexBuildByBuildUUID stateWithB1 3 1 "abort") 3 1 "abort"
      = abortIndexBuildByBuildUUID stateWithB1 3 1 "abort" ∧
    alookup (abortIndexBuildByBuildUUID stateWithB1 3 1 "abort").allIndexBuilds 1 =
      some { recB1 with aborted := true, abortTimestamp := 3, abortReason := "abort" } :=
  ⟨(claim_c5_abort_idempotent stateWithB1 3 1 "abort").1,
   (claim_c5_abort_idempotent stateWithB1 3 1 "abort").2 recB1 (by decide)⟩

/-- Claim C9 counterexample: the destructor's assertions (emptiness of the
two tracker maps and the two disallow maps, source lines 942-947) do not
include the build-id map `_allIndexBuilds`: a state whose build-id map is
nonempty passes all four asserted conditions, refuting the claim that the
destructor asserts emptiness of all three registry mappings. -/
theorem claim_c9_counterexample :
    destructorInvariantsHold stateOnlyAllBuilds ∧
    stateOnlyAllBuilds.allIndexBuilds ≠ [] := by decide

/-- Claim C9 (amended): the destructor asserts emptiness of the database
tracker map, the two disallow maps and the collection tracker map; emptiness
of the build-id map is not asserted directly but follows from the registry
invariant, so in any invariant-respecting state that passes the destructor's
assertions all five containers are empty. -/
theorem claim_c9_amended (s : CoordinatorState)
    (hinv : registryInvariant s = true) (hdtor : destructorInvariantsHold s) :
    s.allIndexBuilds = [] ∧ s.databaseIndexBuilds = [] ∧ s.disallowedDbs = [] ∧
      s.disallowedCollections = [] ∧ s.collectionIndexBuilds = [] := by
  obtain ⟨h1, h2, h3, h4⟩ := hdtor
  refine ⟨?_, h1, h2, h3, h4⟩
  cases hall : s.allIndexBuilds with
  | nil => rfl
  | cons p rest =>
    exfalso
    unfold registryInvariant at hinv
    rw [hall, h1] at hinv
    simp [dbEntryContains, alookup] at hinv

/-- Claim C9 witness: the initial state satisfies the registry invariant and
the destructor's assertions, and all five containers are indeed empty. -/
theorem claim_c9_witness :
    initialState.allIndexBuilds = [] ∧ initialState.databaseIndexBuilds = [] ∧
      initialState.disallowedDbs = [] ∧ initialState.disallowedCollections = [] ∧
      initialState.collectionIndexBuilds = [] :=
  claim_c9_amended initialState (by decide) (by decide)

/-- Claim C4: evidence that the code violates the registry invariants the
claim asserts.  Starting from an empty coordinator, take a database Scoped
Blocker on "dropdb" (a state satisfying the registry invariant), then call
`abortDatabaseIndexBuilds` as a drop-database would: the map `operator[]` at
source line 1115 inserts a null database-tracker entry for "dropdb" even
though no build exists, violating "a Database Tracker is present iff it
holds at least one build".  The entry survives the release of the blocker,
so the quiescent build-free coordinator then reports an in-progress database
and fails the destructor's own `invariant(_databaseIndexBuilds.empty())`. -/
theorem claim_c4_code_bug_evidence :
    stopIndexBuildsOnDatabase initialState "dropdb" = stateBlockedDropdb ∧
    registryInvariant stateBlockedDropdb = true ∧
    abortDatabaseIndexBuilds stateBlockedDropdb "dropdb" "dropping"
      (fun _ => true) = some stateNullDbEntry ∧
    alookup stateNullDbEntry.databaseIndexBuilds "dropdb" = some none ∧
    registryInvariant stateNullDbEntry = false ∧
    allowIndexBuildsOnDatabase stateNullDbEntry "dropdb" = some stateNullDbEntryUnblocked ∧
    ¬ destructorInvariantsHold stateNullDbEntryUnblocked ∧
    stateNullDbEntryUnblocked.allIndexBuilds = [] ∧
    inProgForDb stateNullDbEntryUnblocked "dropdb" = true := by decide

/-- Claim C1 counterexample: commit and abort signals are not mutually
exclusive on a build's record.  Register build 1, deliver an abort signal
(timestamp 3), then deliver a commit signal (timestamp 7): `commitIndexBuild`
sets `isCommitReady` without examining `aborted`, so the record ends with
`isCommitReady` and `aborted` simultaneously true - the later, opposite
signal is not a no-op. -/
theorem claim_c1_counterexample :
    registerIndexBuild initialState recB1 = .ok stateWithB1 ∧
    abortIndexBuildByBuildUUID stateWithB1 3 1 "abort" = stateAborted ∧
    commitIndexBuild stateAborted 7 1 = .ok stateBothFlags ∧
    ((alookup stateBothFlags.allIndexBuilds 1).map fun r =>
      (r.isCommitReady, r.aborted)) = some (true, true) := by decide

/-- Claim C1 (amended): only the guarded signals are one-sided no-ops -
`onStepUp` and `onRollback` skip a record whose `aborted` flag is already
set - while `commitIndexBuild` and `abortIndexBuildByBuildUUID` update the
record unconditionally, so once both a commit and an abort signal have been
observed for a registered build its `isCommitReady` and `aborted` flags are
simultaneously true. -/
theorem claim_c1_amended :
    (∀ r : ReplIndexBuildState, r.aborted = true →
      onStepUpRecord r = some r ∧ onRollbackRecord r = some r) ∧
    (∀ (s : CoordinatorState) (ts : Timestamp) (b : BuildId) (reason : String)
        (r : ReplIndexBuildState), alookup s.allIndexBuilds b = some r →
      alookup (abortIndexBuildByBuildUUID s ts b reason).allIndexBuilds b =
        some { r with aborted := true, abortTimestamp := ts, abortReason := reason }) ∧
    (∀ (s : CoordinatorState) (ts : Timestamp) (b : BuildId)
        (r : ReplIndexBuildState), alookup s.allIndexBuilds b = some r → ts ≠ 0 →
      commitIndexBuild s ts b =
        .ok { s with allIndexBuilds := (updateRecord s.allIndexBuilds b
          (fun r => { r with isCommitReady := true, commitTimestamp := ts })) } ∧
      alookup (updateRecord s.allIndexBuilds b
          (fun r => { r with isCommitReady := true, commitTimestamp := ts })) b =
        some { r with isCommitReady := true, commitTimestamp := ts }) := by
  refine ⟨?_, ?_, ?_⟩
  · intro r h
    constructor <;> simp [onStepUpRecord, onRollbackRecord, h]
  · intro s ts b reason r h
    simp [abortIndexBuildByBuildUUID, h, alookup_updateRecord_self]
  · intro s ts b r h hts
    constructor
    · simp [commitIndexBuild, h, hts]
    · simp [h, alookup_updateRecord_self]

/-- Claim C1 witness: the amended statement applied to the concrete states -
step-up and rollback skip the aborted record `recB1Aborted`; aborting the
commit-ready build 1 of `stateCommitReady` leaves both flags set; committing
the aborted build 1 of `stateAborted` succeeds and leaves both flags set. -/
theorem claim_c1_witness :
    (onStepUpRecord recB1Aborted = some recB1Aborted ∧
      onRollbackRecord recB1Aborted = some recB1Aborted) ∧
    alookup (abortIndexBuildByBuildUUID stateCommitReady 3 1 "abort").allIndexBuilds 1 =
      some { recB1Committed with
             aborted := true
             abortTimestamp := 3
             abortReason := "abort" } ∧
    commitIndexBuild stateAborted 7 1 =
      .ok { stateAborted with allIndexBuilds := (updateRecord stateAborted.allIndexBuilds 1
        (fun r => { r with isCommitReady := true, commitTimestamp := 7 })) } :=
  ⟨claim_c1_amended.1 recB1Aborted (by decide),
   claim_c1_amended.2.1 stateCommitReady 3 1 "abort" recB1Committed (by decide),
   (claim_c1_amended.2.2 stateAborted 7 1 recB1Aborted (by decide) (by decide)).1⟩

theorem mapRecords_id (f : ReplIndexBuildState → Option ReplIndexBuildState)
    (l : List (BuildId × ReplIndexBuildState)) (h : ∀ p ∈ l, f p.2 = some p.2) :
    mapRecords f l = some l := by
  induction l with
  | nil => rfl
  | cons p rest ih =>
    have hp : f p.2 = some p.2 := h p (by simp)
    have hrest : mapRecords f rest = some rest :=
      ih fun q hq => h q (by simp [hq])
    simp [mapRecords, hp, hrest]

/-- Claim C6 counterexample: `onStepUp` is not a no-op on an already
commit-ready build - it fails.  Committing build 1 of `stateWithB1` makes it
commit-ready; a subsequent `onStepUp` trips the source's
`invariant(!replState->isCommitReady)` (modelled by `none`), and a
subsequent `onRollback` does not leave the record unchanged either: it sets
`aborted` with reason "rollback" on the commit-ready record. -/
theorem claim_c6_counterexample :
    commitIndexBuild stateWithB1 7 1 = .ok stateCommitReady ∧
    onStepUp stateCommitReady = none ∧
    onRollback stateCommitReady = some stateCommitReadyRolledBack ∧
    stateCommitReadyRolledBack ≠ stateCommitReady := by decide

/-- Claim C6 (amended): `onStepUp` sets `isCommitReady` on every active
build that is not aborted (and has a null commit timestamp and is not
already commit-ready); `onRollback` sets `aborted` with reason "rollback"
and leaves the abort timestamp null on every build that is not aborted; both
operations skip already-aborted builds unchanged, and on a registry whose
builds are all aborted both are complete no-ops.  They are not idempotent
with respect to commit-ready builds: `onStepUp` trips an invariant there and
`onRollback` modifies the record (see the counterexample). -/
theorem claim_c6_amended :
    (∀ r : ReplIndexBuildState, r.aborted = false → r.commitTimestamp = 0 →
      r.isCommitReady = false →
      onStepUpRecord r = some { r with isCommitReady := true }) ∧
    (∀ r : ReplIndexBuildState, r.aborted = false → r.abortTimestamp = 0 →
      onRollbackRecord r = some { r with aborted := true, abortReason := "rollback" }) ∧
    (∀ r : ReplIndexBuildState, r.aborted = true →
      onStepUpRecord r = some r ∧ onRollbackRecord r = some r) ∧
    (∀ s : CoordinatorState, (∀ p ∈ s.allIndexBuilds, p.2.aborted = true) →
      onStepUp s = some s ∧ onRollback s = some s) := by
  refine ⟨?_, ?_, ?_, ?_⟩
  · intro r h1 h2 h3
    simp [onStepUpRecord, h1, h2, h3]
  · intro r h1 h2
    simp [onRollbackRecord, h1, h2]
  · intro r h
    constructor <;> simp [onStepUpRecord, onRollbackRecord, h]
  · intro s h
    have hstep : mapRecords onStepUpRecord s.allIndexBuilds = some s.allIndexBuilds :=
      mapRecords_id _ _ fun p hp => by simp [onStepUpRecord, h p hp]
    have hroll : mapRecords onRollbackRecord s.allIndexBuilds = some s.allIndexBuilds :=
      mapRecords_id _ _ fun p hp => by simp [onRollbackRecord, h p hp]
    constructor <;> simp [onStepUp, onRollback, hstep, hroll]

/-- Claim C6 witness: the amended statement applied to concrete records and
states - step-up marks the fresh `recB1` commit-ready, rollback marks it
aborted with reason "rollback", both skip `recB1Aborted`, and on
`stateAborted` (whose only build is aborted) both operations are no-ops. -/
theorem claim_c6_witness :
    onStepUpRecord recB1 = some { recB1 with isCommitReady := true } ∧
    onRollbackRecord recB1 = some { recB1 with aborted := true, abortReason := "rollback" } ∧
    (onStepUpRecord recB1Aborted = some recB1Aborted ∧
      onRollbackRecord recB1Aborted = some recB1Aborted) ∧
    (onStepUp stateAborted = some stateAborted ∧
      onRollback stateAborted = some stateAborted) :=
  ⟨claim_c6_amended.1 recB1 (by decide) (by decide) (by decide),
   claim_c6_amended.2.1 recB1 (by decide) (by decide),
   claim_c6_amended.2.2.1 recB1Aborted (by decide),
   claim_c6_amended.2.2.2 stateAborted (by decide)⟩

/-- Claim C2 counterexample: when the colliding build's `aborted` flag is set
but the build is also commit-ready, registration fails with
`IndexBuildAlreadyInProgress`, not `IndexBuildAborted`: the source reads
`isCommitReady` first and only reaches the `aborted` test in the else
branch.  The both-flags state is reachable through the coordinator's own
interface (abort signal then commit signal, cf. the C1 analysis). -/
theorem claim_c2_counterexample :
    commitIndexBuild stateAborted 7 1 = .ok stateBothFlags ∧
    ((alookup stateBothFlags.allIndexBuilds 1).map fun r => r.aborted) = some true ∧
    registerIndexBuild stateBothFlags recB2 = .err .indexBuildAlreadyInProgress := by
  decide

/-- Claim C2 (amended): `_registerIndexBuild` fails with `CannotCreateIndex`
whenever a disallow (Scoped Blocker) entry exists for the build's collection
or database; with `IndexBuildAlreadyInProgress` when the first requested
index name that collides belongs to a registered build that is not aborted
(whatever its `isCommitReady` flag); and with `IndexBuildAborted` when that
colliding build is aborted and not commit-ready - a colliding build carrying
both flags yields `IndexBuildAlreadyInProgress` instead (see the
counterexample). -/
theorem claim_c2_amended :
    (∀ (s : CoordinatorState) (b : ReplIndexBuildState),
      ((alookup s.disallowedCollections b.collectionUUID).isSome ∨
        (alookup s.disallowedDbs b.dbName).isSome) →
      registerIndexBuild s b = .err .cannotCreateIndex) ∧
    (∀ (s : CoordinatorState) (b : ReplIndexBuildState)
        (tracker : CollectionIndexBuildsTracker) (existingId : BuildId)
        (existing : ReplIndexBuildState),
      alookup s.disallowedCollections b.collectionUUID = none →
      alookup s.disallowedDbs b.dbName = none →
      alookup s.collectionIndexBuilds b.collectionUUID = some tracker →
      firstConflictingBuild tracker b.indexNames = some existingId →
      alookup s.allIndexBuilds existingId = some existing →
      existing.aborted = false →
      registerIndexBuild s b = .err .indexBuildAlreadyInProgress) ∧
    (∀ (s : CoordinatorState) (b : ReplIndexBuildState)
        (tracker : CollectionIndexBuildsTracker) (existingId : BuildId)
        (existing : ReplIndexBuildState),
      alookup s.disallowedCollections b.collectionUUID = none →
      alookup s.disallowedDbs b.dbName = none →
      alookup s.collectionIndexBuilds b.collectionUUID = some tracker →
      firstConflictingBuild tracker b.indexNames = some existingId →
      alookup s.allIndexBuilds existingId = some existing →
      existing.aborted = true → existing.isCommitReady = false →
      registerIndexBuild s b = .err .indexBuildAborted) := by
  refine ⟨?_, ?_, ?_⟩
  · intro s b h
    rcases h with h | h <;>
      simp [registerIndexBuild, h]
  · intro s b tracker existingId existing hdc hdb htr hconf hex habort
    by_cases hcr : existing.isCommitReady <;>
      simp [registerIndexBuild, collisionCheck, hdc, hdb, htr, hconf, hex,
        habort, hcr]
  · intro s b tracker existingId existing hdc hdb htr hconf hex habort hcr
    simp [registerIndexBuild, collisionCheck, hdc, hdb, htr, hconf, hex,
      habort, hcr]

/-- Claim C2 witness: the amended statement applied concretely - registering
on the blocked database "dropdb" is denied with `CannotCreateIndex`;
registering `recB2` against the in-progress build 1 of `stateWithB1` fails
with `IndexBuildAlreadyInProgress`; registering it against the aborted build
1 of `stateAborted` fails with `IndexBuildAborted`. -/
theorem claim_c2_witness :
    registerIndexBuild stateBlockedDropdb recDropdb = .err .cannotCreateIndex ∧
    registerIndexBuild stateWithB1 recB2 = .err .indexBuildAlreadyInProgress ∧
    registerIndexBuild stateAborted recB2 = .err .indexBuildAborted :=
  ⟨claim_c2_amended.1 stateBlockedDropdb recDropdb (Or.inr (by decide)),
   claim_c2_amended.2.1 stateWithB1 recB2
     { buildStateByIndexName := [("idx_a", 1)], buildStateByBuildUUID := [1] } 1 recB1
     (by decide) (by decide) (by decide) (by decide) (by decide) (by decide),
   claim_c2_amended.2.2 stateAborted recB2
     { buildStateByIndexName := [("idx_a", 1)], buildStateByBuildUUID := [1] } 1 recB1Aborted
     (by decide) (by decide) (by decide) (by decide) (by decide) (by decide) (by decide)⟩

/-- Claim C8: `_waitForCommitOrAbort` skips waiting entirely and returns the
null timestamp whenever the build is not two-phase, replication is not in
use, or the node currently accepts writes for the namespace (first
conjunct); when woken with `isCommitReady` on a build whose record was
stamped by `commitIndexBuild`, it returns exactly that stamped commit
timestamp (second conjunct); and when woken by an abort signal it returns
the null timestamp (third conjunct). -/
theorem claim_c8_wait_semantics :
    (∀ (protocol : IndexBuildProtocol) (usingReplSets canAcceptWrites : Bool)
        (r : ReplIndexBuildState) (preAbortStatus : Option ErrorCode),
      (protocol ≠ .kTwoPhase ∨ usingReplSets = false ∨ canAcceptWrites = true) →
      waitForCommitOrAbort protocol usingReplSets canAcceptWrites r preAbortStatus
        = .proceedsToCommit 0) ∧
    (∀ (s : CoordinatorState) (ts : Timestamp) (b : BuildId)
        (r : ReplIndexBuildState),
      alookup s.allIndexBuilds b = some r → r.aborted = false → ts ≠ 0 →
      ∃ s1, commitIndexBuild s ts b = .ok s1 ∧
        alookup s1.allIndexBuilds b =
          some { r with isCommitReady := true, commitTimestamp := ts } ∧
        waitForCommitOrAbort .kTwoPhase true false
          { r with isCommitReady := true, commitTimestamp := ts } none
          = .proceedsToCommit ts) ∧
    (∀ (protocol : IndexBuildProtocol) (usingReplSets canAcceptWrites : Bool)
        (r : ReplIndexBuildState) (preAbortStatus : Option ErrorCode),
      r.aborted = true → r.isCommitReady = false →
      waitForCommitOrAbort protocol usingReplSets canAcceptWrites r preAbortStatus
        = .proceedsToCommit 0) := by
  refine ⟨?_, ?_, ?_⟩
  · intro protocol usingReplSets canAcceptWrites r pre h
    rcases h with h | h | h <;>
      simp [waitForCommitOrAbort, shouldWaitForCommitOrAbort, h]
  · intro s ts b r h habort hts
    refine ⟨{ s with allIndexBuilds := (updateRecord s.allIndexBuilds b
      (fun r => { r with isCommitReady := true, commitTimestamp := ts })) }, ?_, ?_, ?_⟩
    · simp [commitIndexBuild, h, hts]
    · simp [h, alookup_updateRecord_self]
    · simp [waitForCommitOrAbort, shouldWaitForCommitOrAbort, habort]
  · intro protocol usingReplSets canAcceptWrites r pre habort hcr
    by_cases hw : shouldWaitForCommitOrAbort protocol usingReplSets canAcceptWrites <;>
      simp [waitForCommitOrAbort, hw, habort, hcr]

/-- Claim C8 witness: the wait is skipped for a single-phase build; committing
build 1 of `stateWithB1` with timestamp 7 stamps the record so that the wait
returns 7; the wait on the aborted record `recB1Aborted` returns the null
timestamp. -/
theorem claim_c8_witness :
    waitForCommitOrAbort .kSinglePhase true false recB1 none = .proceedsToCommit 0 ∧
    (∃ s1, commitIndexBuild stateWithB1 7 1 = .ok s1 ∧
      alookup s1.allIndexBuilds 1 =
        some { recB1 with isCommitReady := true, commitTimestamp := 7 } ∧
      waitForCommitOrAbort .kTwoPhase true false
        { recB1 with isCommitReady := true, commitTimestamp := 7 } none
        = .proceedsToCommit 7) ∧
    waitForCommitOrAbort .kTwoPhase true false recB1Aborted none = .proceedsToCommit 0 :=
  ⟨claim_c8_wait_semantics.1 .kSinglePhase true false recB1 none (Or.inl (by decide)),
   claim_c8_wait_semantics.2.1 stateWithB1 7 1 recB1 (by decide) (by decide) (by decide),
   claim_c8_wait_semantics.2.2 .kTwoPhase true false recB1Aborted none
     (by decide) (by decide)⟩

/-- Claim C7: on a secondary (replica sets in use, cannot accept writes for
the namespace) a failure during the scan or the first two drains of a
two-phase build is held as a pre-abort status rather than rethrown: with
neither signal present the driver still waits (first conjunct); if the
commit signal is then observed the held error surfaces as the thrown status,
and any such error other than `IndexBuildAborted` makes `_runIndexBuildInner`
crash the node via `fassert` (second conjunct); if the abort signal is
observed the held error is discarded and the driver behaves exactly as if no
scan error had occurred (third conjunct).  On a node that is not a
replica-set secondary the error is rethrown immediately (fourth conjunct). -/
theorem claim_c7_held_error :
    (∀ (r : ReplIndexBuildState) (e : ErrorCode), e ≠ .interruptedAtShutdown →
      r.isCommitReady = false → r.aborted = false →
      buildIndexTwoPhase .kTwoPhase true false r (some e) = .keepsWaiting) ∧
    (∀ (r : ReplIndexBuildState) (e : ErrorCode), e ≠ .interruptedAtShutdown →
      r.isCommitReady = true → r.aborted = false →
      buildIndexTwoPhase .kTwoPhase true false r (some e) = .thrown e ∧
      (e ≠ .indexBuildAborted → secondaryFailureAction e = .fassertCrash)) ∧
    (∀ (r : ReplIndexBuildState) (e : ErrorCode), e ≠ .interruptedAtShutdown →
      r.aborted = true → r.isCommitReady = false →
      buildIndexTwoPhase .kTwoPhase true false r (some e) = .proceedsToCommit 0 ∧
      buildIndexTwoPhase .kTwoPhase true false r (some e)
        = buildIndexTwoPhase .kTwoPhase true false r none) ∧
    (∀ (usingReplSets canAcceptWrites : Bool) (protocol : IndexBuildProtocol)
        (r : ReplIndexBuildState) (e : ErrorCode),
      (usingReplSets && !canAcceptWrites) = false →
      buildIndexTwoPhase protocol usingReplSets canAcceptWrites r (some e)
        = .thrown e) := by
  refine ⟨?_, ?_, ?_, ?_⟩
  · intro r e he hcr habort
    simp [buildIndexTwoPhase, waitForCommitOrAbort, shouldWaitForCommitOrAbort,
      he, hcr, habort]
  · intro r e he hcr habort
    constructor
    · simp [buildIndexTwoPhase, waitForCommitOrAbort, shouldWaitForCommitOrAbort,
        he, hcr, habort]
    · intro hne
      simp [secondaryFailureAction, hne]
  · intro r e he habort hcr
    constructor <;>
      simp [buildIndexTwoPhase, waitForCommitOrAbort, shouldWaitForCommitOrAbort,
        he, habort, hcr]
  · intro usingReplSets canAcceptWrites protocol r e h
    simp [buildIndexTwoPhase, h]

/-- Claim C7 witness: with a held `DuplicateKey` scan error on the secondary
path, the fresh record keeps waiting; the commit-ready record surfaces the
held error and the node would crash; the aborted record discards the error
and proceeds with the null timestamp; on a primary the error is rethrown at
once. -/
theorem claim_c7_witness :
    buildIndexTwoPhase .kTwoPhase true false recB1 (some .duplicateKey) = .keepsWaiting ∧
    (buildIndexTwoPhase .kTwoPhase true false recB1Committed (some .duplicateKey)
        = .thrown .duplicateKey ∧
      secondaryFailureAction .duplicateKey = .fassertCrash) ∧
    buildIndexTwoPhase .kTwoPhase true false recB1Aborted (some .duplicateKey)
      = .proceedsToCommit 0 ∧
    buildIndexTwoPhase .kTwoPhase true true recB1 (some .duplicateKey)
      = .thrown .duplicateKey :=
  ⟨claim_c7_held_error.1 recB1 .duplicateKey (by decide) (by decide) (by decide),
   ⟨(claim_c7_held_error.2.1 recB1Committed .duplicateKey (by decide) (by decide)
      (by decide)).1,
    (claim_c7_held_error.2.1 recB1Committed .duplicateKey (by decide) (by decide)
      (by decide)).2 (by decide)⟩,
   (claim_c7_held_error.2.2.1 recB1Aborted .duplicateKey (by decide) (by decide)
     (by decide)).1,
   claim_c7_held_error.2.2.2 true true .kTwoPhase recB1 .duplicateKey (by decide)⟩

theorem setupRecord_fields (dbName : String) (collectionUUID : CollUUID)
    (buildUUID : BuildId) (protocol : IndexBuildProtocol)
    (commitQuorum : Option Nat) (filteredSpecs : List IndexSpec)
    (numIndexesTotal : Nat) :
    (setupRecord dbName collectionUUID buildUUID protocol commitQuorum
      filteredSpecs numIndexesTotal).collectionUUID = collectionUUID ∧
    (setupRecord dbName collectionUUID buildUUID protocol commitQuorum
      filteredSpecs numIndexesTotal).dbName = dbName ∧
    (setupRecord dbName collectionUUID buildUUID protocol commitQuorum
      filteredSpecs numIndexesTotal).buildUUID = buildUUID ∧
    (setupRecord dbName collectionUUID buildUUID protocol commitQuorum
      filteredSpecs numIndexesTotal).numIndexesBefore = numIndexesTotal :=
  ⟨rfl, rfl, rfl, rfl⟩

theorem registerIndexBuild_ok (s : CoordinatorState) (b : ReplIndexBuildState)
    (hdc : alookup s.disallowedCollections b.collectionUUID = none)
    (hdb : alookup s.disallowedDbs b.dbName = none)
    (hcol : collisionCheck s b = none)
    (hfresh : alookup s.allIndexBuilds b.buildUUID = none) :
    registerIndexBuild s b = .ok { s with
      databaseIndexBuilds := ainsert s.databaseIndexBuilds b.dbName
        (some (b.buildUUID :: ((alookup s.databaseIndexBuilds b.dbName).join).getD []))
      collectionIndexBuilds := ainsert s.collectionIndexBuilds b.collectionUUID
        (((alookup s.collectionIndexBuilds b.collectionUUID).getD
          CollectionIndexBuildsTracker.empty).addIndexBuild b)
      allIndexBuilds := (b.buildUUID, b) :: s.allIndexBuilds } := by
  simp [registerIndexBuild, hdc, hdb, hcol, hfresh]

theorem unregisterIndexBuild_after_register (s : CoordinatorState)
    (b : ReplIndexBuildState) :
    ∃ s2, unregisterIndexBuild { s with
        databaseIndexBuilds := ainsert s.databaseIndexBuilds b.dbName
          (some (b.buildUUID :: ((alookup s.databaseIndexBuilds b.dbName).join).getD []))
        collectionIndexBuilds := ainsert s.collectionIndexBuilds b.collectionUUID
          (((alookup s.collectionIndexBuilds b.collectionUUID).getD
            CollectionIndexBuildsTracker.empty).addIndexBuild b)
        allIndexBuilds := (b.buildUUID, b) :: s.allIndexBuilds } b = some s2 ∧
      s2.allIndexBuilds = s.allIndexBuilds := by
  cases h : unregisterIndexBuild { s with
      databaseIndexBuilds := ainsert s.databaseIndexBuilds b.dbName
        (some (b.buildUUID :: ((alookup s.databaseIndexBuilds b.dbName).join).getD []))
      collectionIndexBuilds := ainsert s.collectionIndexBuilds b.collectionUUID
        (((alookup s.collectionIndexBuilds b.collectionUUID).getD
          CollectionIndexBuildsTracker.empty).addIndexBuild b)
      allIndexBuilds := (b.buildUUID, b) :: s.allIndexBuilds } b with
  | none =>
    exfalso
    unfold unregisterIndexBuild at h
    simp only [alookup_ainsert_self, CollectionIndexBuildsTracker.addIndexBuild,
      CollectionIndexBuildsTracker.removeIndexBuild,
      CollectionIndexBuildsTracker.getNumberOfIndexBuilds,
      List.erase_cons_head, alookup_cons_self, Option.isSome_some,
      aerase_cons_self] at h
    exact Option.noConfusion h
  | some s2 =>
    refine ⟨s2, rfl, ?_⟩
    unfold unregisterIndexBuild at h
    simp only [alookup_ainsert_self, CollectionIndexBuildsTracker.addIndexBuild,
      CollectionIndexBuildsTracker.removeIndexBuild,
      CollectionIndexBuildsTracker.getNumberOfIndexBuilds,
      List.erase_cons_head, alookup_cons_self, Option.isSome_some,
      aerase_cons_self] at h
    cases h
    rfl

/-- Claim C3: if, after applying collation defaults and filtering out specs
that already exist or are already being built, the remaining spec list is
empty, `_registerAndSetUpIndexBuild` returns a ready successful future with
`numIndexesBefore == numIndexesAfter` and leaves the registry untouched
(first conjunct); and if manager setup fails with `IndexAlreadyExists` (or
with `IndexOptionsConflict`/`IndexKeySpecsConflict` under relaxed
constraints), the build is unregistered and the same ready future is
returned, with no record left in the registry for the build (second
conjunct). -/
theorem claim_c3_already_satisfied :
    (∀ (s : CoordinatorState) (dbName : String) (collectionUUID : CollUUID)
        (buildUUID : BuildId) (protocol : IndexBuildProtocol)
        (commitQuorum : Option Nat) (numIndexesTotal : Nat)
        (relaxConstraints : Bool) (setupStatus : Option ErrorCode),
      registerAndSetUpIndexBuild s dbName collectionUUID buildUUID protocol
        commitQuorum (.ok []) numIndexesTotal relaxConstraints setupStatus
        = (s, .readyFuture numIndexesTotal numIndexesTotal)) ∧
    (∀ (s : CoordinatorState) (dbName : String) (collectionUUID : CollUUID)
        (buildUUID : BuildId) (protocol : IndexBuildProtocol)
        (commitQuorum : Option Nat) (filteredSpecs : List IndexSpec)
        (numIndexesTotal : Nat) (relaxConstraints : Bool) (e : ErrorCode),
      filteredSpecs ≠ [] →
      alookup s.disallowedCollections collectionUUID = none →
      alookup s.disallowedDbs dbName = none →
      collisionCheck s (setupRecord dbName collectionUUID buildUUID protocol
        commitQuorum filteredSpecs numIndexesTotal) = none →
      alookup s.allIndexBuilds buildUUID = none →
      (e = .indexAlreadyExists ∨
        ((e = .indexOptionsConflict ∨ e = .indexKeySpecsConflict) ∧
          relaxConstraints = true)) →
      ∃ s2, registerAndSetUpIndexBuild s dbName collectionUUID buildUUID protocol
          commitQuorum (.ok filteredSpecs) numIndexesTotal relaxConstraints (some e)
          = (s2, .readyFuture numIndexesTotal numIndexesTotal) ∧
        alookup s2.allIndexBuilds buildUUID = none) := by
  constructor
  · intro s dbName collectionUUID buildUUID protocol commitQuorum numIndexesTotal
      relaxConstraints setupStatus
    simp [registerAndSetUpIndexBuild]
  · intro s dbName collectionUUID buildUUID protocol commitQuorum filteredSpecs
      numIndexesTotal relaxConstraints e hne hdc hdb hcol hfresh hcode
    have hreg := registerIndexBuild_ok s
      (setupRecord dbName collectionUUID buildUUID protocol commitQuorum
        filteredSpecs numIndexesTotal) hdc hdb hcol hfresh
    obtain ⟨s2, hunreg, hall⟩ := unregisterIndexBuild_after_register s
      (setupRecord dbName collectionUUID buildUUID protocol commitQuorum
        filteredSpecs numIndexesTotal)
    have hempty : filteredSpecs.isEmpty = false := by
      cases filteredSpecs with
      | nil => exact absurd rfl hne
      | cons a as => rfl
    refine ⟨s2, ?_, ?_⟩
    · simp only [registerAndSetUpIndexBuild, hempty, Bool.false_eq_true,
        if_false, hreg, hunreg]
      rw [if_pos hcode]
      rfl
    · rw [hall]
      exact hfresh

/-- Claim C3 witness: an empty filtered list on `stateWithB1` short-circuits
to a ready future with equal counts and the untouched state; a fresh build on
the initial state whose manager setup fails with `IndexAlreadyExists` also
returns the short-circuit and leaves no record registered. -/
theorem claim_c3_witness :
    registerAndSetUpIndexBuild stateWithB1 "testdb" 10 2 .kTwoPhase none
      (.ok []) 5 false none = (stateWithB1, .readyFuture 5 5) ∧
    (∃ s2, registerAndSetUpIndexBuild initialState "testdb" 10 1 .kTwoPhase none
        (.ok [specA]) 5 false (some .indexAlreadyExists)
        = (s2, .readyFuture 5 5) ∧ alookup s2.allIndexBuilds 1 = none) :=
  ⟨claim_c3_already_satisfied.1 stateWithB1 "testdb" 10 2 .kTwoPhase none 5
     false none,
   claim_c3_already_satisfied.2 initialState "testdb" 10 1 .kTwoPhase none
     [specA] 5 false .indexAlreadyExists (by decide) (by decide) (by decide)
     (by decide) (by decide) (Or.inl rfl)⟩
